import Mathlib

/-!
Shallow embedding of `listcompute.py` (OCI inventory / cost-estimation tool).

Modelling conventions:
* Python numbers are modelled exactly: `int` as `ℤ`-valued and `float` as
  `ℚ`-valued constructors of `PyVal`; all the arithmetic in the source is
  on small decimal constants, which are exact rationals.
* Python's dynamic typing matters for this program (the collector can feed
  the string `"N/A"` into arithmetic), so values flowing through the cost
  pipeline are a sum type `PyVal` of ints, floats and strings, with `+` and
  `*` given Python's semantics (string repetition by an int, `TypeError`
  otherwise), and fallible computations return `Except String _`.
* The cloud API calls of the collector are replaced by explicit input data
  (`InstanceInfo`, `MysqlDbInfo` lists): the collector functions are the
  pure record-assembly logic of the source applied to those inputs.
-/

/-- A Python runtime value as used by this program: an `int`, a `float`
(modelled as an exact rational) or a `str`. -/
inductive PyVal where
  | int (n : ℤ)
  | float (q : ℚ)
  | str (s : String)
deriving DecidableEq, Repr

/-- Numeric value of a numeric `PyVal` (ints and floats). -/
def PyVal.toQ : PyVal → Option ℚ
  | .int n => some (n : ℚ)
  | .float q => some q
  | .str _ => none

/-- Python multiplication on `PyVal`: numeric × numeric multiplies (int×int
stays int, otherwise float); str × int is sequence repetition; str × float
and str × str raise `TypeError`. -/
def pyMul : PyVal → PyVal → Except String PyVal
  | .int m, .int n => .ok (.int (m * n))
  | .int m, .float q => .ok (.float ((m : ℚ) * q))
  | .float q, .int n => .ok (.float (q * (n : ℚ)))
  | .float p, .float q => .ok (.float (p * q))
  | .str s, .int n => .ok (.str (String.join (List.replicate n.toNat s)))
  | .int n, .str s => .ok (.str (String.join (List.replicate n.toNat s)))
  | .str _, .float _ => .error "TypeError: cannot multiply sequence by non-int of type float"
  | .float _, .str _ => .error "TypeError: cannot multiply sequence by non-int of type float"
  | .str _, .str _ => .error "TypeError: cannot multiply sequence by non-int of type str"

/-- Python addition on `PyVal`: numeric + numeric adds (int+int stays int,
otherwise float); str + str concatenates; mixing a number and a string
raises `TypeError`. -/
def pyAdd : PyVal → PyVal → Except String PyVal
  | .int m, .int n => .ok (.int (m + n))
  | .int m, .float q => .ok (.float ((m : ℚ) + q))
  | .float q, .int n => .ok (.float (q + (n : ℚ)))
  | .float p, .float q => .ok (.float (p + q))
  | .str s, .str t => .ok (.str (s ++ t))
  | _, _ => .error "TypeError: unsupported operand types for +"

/-- Python `float(x)` on the values this program can produce: numbers
convert, strings raise `ValueError` (no numeric string ever reaches this
call in the source). -/
def pyFloat : PyVal → Except String ℚ
  | .int n => .ok (n : ℚ)
  | .float q => .ok q
  | .str s => .error ("ValueError: could not convert string to float: " ++ s)

/-- `float(v) if v != "N/A" else 0` — the conversion at the top of
`get_instance_cost` (listcompute.py lines 204-205). -/
def pyFloatOrNA (v : PyVal) : Except String ℚ :=
  if v ≠ .str "N/A" then pyFloat v else .ok 0

/-! ## Pricing tables and cost estimators (source lines 19-33, 168-214, 259-312) -/

/-- `os_pricing_table` of `get_os_cost`: per-OCPU-per-hour OS surcharge;
the value `0.092` is a Python float. -/
def os_pricing_table : List (String × PyVal) :=
  [("Windows", .float 0.092)]

/-- `get_os_cost(os_name, ocpus)` (lines 19-33): looks up the OS rate
(defaulting to the Python int `0`) and returns `ocpus * rate * 730`,
evaluated with Python's dynamic `*`. -/
def get_os_cost (os_name : String) (ocpus : PyVal) : Except String PyVal :=
  let os_cost_per_ocpu := (os_pricing_table.lookup os_name).getD (.int 0)
  match pyMul ocpus os_cost_per_ocpu with
  | .error e => .error e
  | .ok t => pyMul t (.int 730)

/-- Storage `pricing_table` of `get_storage_cost` (lines 174-177):
USD per GB per month. -/
def storage_pricing_table : List (String × ℚ) :=
  [("standard_block", 0.0255), ("boot_volume", 0.0255)]

/-- `get_storage_cost(size_in_mbs, region)` (lines 168-185): converts MB to
GB (`size_in_mbs / 1024 if size_in_mbs else 0` — a Python truthiness test,
i.e. zero stays zero) and multiplies by the `"standard_block"` rate. The
`region` argument is never consulted. -/
def get_storage_cost (size_in_mbs : ℚ) (region : String) : ℚ :=
  let size_in_gbs := if size_in_mbs ≠ 0 then size_in_mbs / 1024 else 0
  size_in_gbs * ((storage_pricing_table.lookup "standard_block").getD 0)

/-- One entry of the compute `pricing_table`: either per-OCPU/per-GB hourly
rates (a "flexible" shape) or a flat hourly rate (a "fixed" shape, whose
dict has the key `"fixed"`). -/
inductive ShapeEntry where
  | flex (ocpu memory : ℚ)
  | fixedRate (rate : ℚ)
deriving DecidableEq, Repr

/-- The compute `pricing_table` of `get_instance_cost` (lines 194-201). -/
def pricing_table : List (String × ShapeEntry) :=
  [ ("VM.Standard3.Flex", .flex 0.04 0.0015)
  , ("VM.Standard.E3.Flex", .flex 0.025 0.0015)
  , ("VM.Standard.E4.Flex", .flex 0.025 0.0015)
  , ("VM.Standard.E5.Flex", .flex 0.03 0.002)
  , ("BM.Standard.E3.128", .fixedRate 2.88)
  , ("BM.Standard.E4.128", .fixedRate 3.2)
  ]

/-- `get_instance_cost(shape, ocpus, memory_in_gbs, region)` (lines
187-214): converts `ocpus`/`memory_in_gbs` with `float(v) if v != "N/A"
else 0`, then returns the hourly rate — `ocpus*ocpu_rate +
memory*memory_rate` for flexible shapes, the flat rate for fixed shapes,
and `0` for a shape missing from the table. The `region` argument is never
consulted. -/
def get_instance_cost (shape : String) (ocpus memory_in_gbs : PyVal)
    (region : String) : Except String ℚ :=
  match pyFloatOrNA ocpus with
  | .error e => .error e
  | .ok o =>
    match pyFloatOrNA memory_in_gbs with
    | .error e => .error e
    | .ok m =>
      match pricing_table.lookup shape with
      | some (.flex ocpu_rate memory_rate) => .ok (o * ocpu_rate + m * memory_rate)
      | some (.fixedRate rate) => .ok rate
      | none => .ok 0

/-- One entry of the MySQL `pricing_table` of `get_mysql_cost`
(lines 264-288): shape-determined OCPU count, memory and hourly prices. -/
structure MysqlShapeEntry where
  ocpus : ℚ
  memory : ℚ
  ocpu_price : ℚ
  memory_price : ℚ
deriving DecidableEq, Repr

/-- The MySQL `pricing_table` of `get_mysql_cost` (lines 264-288). -/
def mysql_pricing_table : List (String × MysqlShapeEntry) :=
  [ ("MySQL.VM.Standard.E3", ⟨1, 8, 0.025, 0.0015⟩)
  , ("MySQL.VM.Standard.E4", ⟨1, 16, 0.030, 0.002⟩)
  , ("MySQL.HeatWave.VM.Standard.E3", ⟨16, 512, 0.04, 0.0025⟩)
  , ("MySQL.HeatWave.VM.Standard.E4", ⟨16, 1024, 0.045, 0.003⟩)
  , ("MySQL.HeatWave.BM.Standard.E3", ⟨32, 2048, 0.06, 0.004⟩)
  , ("MySQL.VM.Standard2.8.120GB", ⟨8, 120, 0.05, 0.003⟩)
  , ("MySQL.VM.Standard.E3.4.64GB", ⟨4, 64, 0.035, 0.002⟩)
  , ("MySQL.HeatWave.VM.Standard", ⟨32, 2048, 0.06, 0.004⟩)
  , ("MySQL.VM.Standard1.1", ⟨1, 7, 0.020, 0.0012⟩)
  , ("MySQL.VM.Standard2.1", ⟨1, 15, 0.022, 0.0013⟩)
  , ("MySQL.VM.Standard2.2", ⟨2, 30, 0.024, 0.0014⟩)
  , ("MySQL.VM.Standard2.4", ⟨4, 60, 0.028, 0.0016⟩)
  , ("MySQL.VM.Standard2.8", ⟨8, 120, 0.032, 0.0018⟩)
  , ("MySQL.VM.Standard2.16", ⟨16, 240, 0.038, 0.002⟩)
  , ("MySQL.VM.Standard2.24", ⟨24, 320, 0.042, 0.0022⟩)
  , ("MySQL.2", ⟨2, 16, 0.03, 0.0015⟩)
  , ("MySQL.4", ⟨4, 32, 0.035, 0.002⟩)
  , ("MySQL.8", ⟨8, 64, 0.04, 0.0025⟩)
  , ("MySQL.16", ⟨16, 128, 0.045, 0.003⟩)
  , ("MySQL.32", ⟨32, 256, 0.05, 0.0035⟩)
  , ("MySQL.48", ⟨48, 384, 0.055, 0.004⟩)
  , ("MySQL.64", ⟨64, 512, 0.06, 0.0045⟩)
  , ("MySQL.256", ⟨256, 2048, 0.07, 0.005⟩)
  ]

/-- `storage_cost_per_gb_month = 0.0255` (line 291). -/
def storage_cost_per_gb_month : ℚ := 0.0255

/-- Round-half-to-even on an exact rational — the semantics of Python's
builtin `round` to the nearest integer. -/
def roundHalfEven (q : ℚ) : ℤ :=
  let f := ⌊q⌋
  let frac := q - (f : ℚ)
  if frac < 1/2 then f
  else if 1/2 < frac then f + 1
  else if f % 2 = 0 then f else f + 1

/-- Python's `round(x, 2)`: round to two decimal places, half to even. -/
def pyRound2 (q : ℚ) : ℚ := (roundHalfEven (q * 100) : ℚ) / 100

/-- Result of `get_mysql_cost`: either the dict `{"error": "Unknown shape"}`
(modelled as the `errDict` constructor carrying the message) or the rounded
numeric monthly cost. -/
inductive MysqlCost where
  | errDict (msg : String)
  | num (q : ℚ)
deriving DecidableEq, Repr

/-- `get_mysql_cost(shape, storage_in_gbs)` (lines 259-312): unknown shape
returns the error dict (the table has no empty entry, so Python's
`if not shape_details` is exactly the missing-key test); otherwise the
hourly OCPU+memory cost plus the hourly share of the monthly storage cost,
times 730, rounded to 2 decimals. -/
def get_mysql_cost (shape : String) (storage_in_gbs : ℚ) : MysqlCost :=
  match mysql_pricing_table.lookup shape with
  | none => .errDict "Unknown shape"
  | some shape_details =>
    let ocpu_cost := shape_details.ocpus * shape_details.ocpu_price
    let memory_cost := shape_details.memory * shape_details.memory_price
    let storage_cost_per_hour := (storage_in_gbs * storage_cost_per_gb_month) / 730
    let total_cost_per_hour := ocpu_cost + memory_cost + storage_cost_per_hour
    .num (pyRound2 (total_cost_per_hour * 730))

/-! ## Inventory collector (source lines 61-166 and 216-256), with the API
responses made explicit inputs -/

/-- `instance.shape_config` as delivered by the API: each field can be
absent (`None`). -/
structure ShapeConfig where
  ocpus : Option ℚ
  memory_in_gbs : Option ℚ
deriving DecidableEq, Repr

/-- The data the collector reads about one compute instance: the instance
fields it consults plus the responses of the per-instance API calls (image
operating system, and the id/size pairs of the attached boot and block
volumes). -/
structure InstanceInfo where
  display_name : String
  id : String
  lifecycle_state : String
  shape : String
  shape_config : Option ShapeConfig
  image_operating_system : String
  time_created : Option String
  boot_volumes : List (String × ℚ)
  block_volumes : List (String × ℚ)
deriving DecidableEq, Repr

/-- `shape_config.ocpus if shape_config and shape_config.ocpus else "N/A"`
(line 91): Python truthiness, so a missing config, a missing field or a
zero value all become the string `"N/A"`. -/
def extract_ocpus : Option ShapeConfig → PyVal
  | none => .str "N/A"
  | some c =>
    match c.ocpus with
    | none => .str "N/A"
    | some q => if q ≠ 0 then .float q else .str "N/A"

/-- Same extraction for `memory_in_gbs` (line 92). -/
def extract_memory : Option ShapeConfig → PyVal
  | none => .str "N/A"
  | some c =>
    match c.memory_in_gbs with
    | none => .str "N/A"
    | some q => if q ≠ 0 then .float q else .str "N/A"

/-- The record assembled per instance (lines 143-163). -/
structure InstanceRecord where
  region : String
  compartment_id : String
  instance_name : String
  instance_state : String
  instance_ocid : String
  os : String
  shape : String
  ocpus : PyVal
  memory_in_gbs : PyVal
  boot_size_in_MBs : ℚ
  block_size_in_MBs : ℚ
  boot_volume_ids : List String
  block_volume_ids : List String
  date_created : Option String
  estimated_compute_cost_per_month : ℚ
  estimated_os_cost_per_month : PyVal
  estimated_storage_cost_per_month : ℚ
  total_cost_per_month : PyVal
deriving DecidableEq, Repr

/-- The per-instance body of `list_instances_and_volumes` (lines 87-164):
extract ocpus/memory, sum the attached volume sizes and storage costs,
compute the three cost fields (compute cost forced to `0` when the instance
is `"STOPPED"`, otherwise `get_instance_cost(...) * 730`), and build the
record whose total is `compute + storage + os` under Python's `+` — an
addition that raises `TypeError` when the OS surcharge is a string. -/
def mkInstanceRecord (region compartment_id : String) (inst : InstanceInfo) :
    Except String InstanceRecord :=
  let ocpus := extract_ocpus inst.shape_config
  let memory_in_gbs := extract_memory inst.shape_config
  let boot_size : ℚ := (inst.boot_volumes.map Prod.snd).sum
  let boot_cost : ℚ := (inst.boot_volumes.map (fun v => get_storage_cost v.2 region)).sum
  let block_size : ℚ := (inst.block_volumes.map Prod.snd).sum
  let block_cost : ℚ := (inst.block_volumes.map (fun v => get_storage_cost v.2 region)).sum
  let computeE : Except String ℚ :=
    if inst.lifecycle_state = "STOPPED" then .ok 0
    else
      match get_instance_cost inst.shape ocpus memory_in_gbs region with
      | .error e => .error e
      | .ok c => .ok (c * 730)
  match computeE with
  | .error e => .error e
  | .ok estimated_compute_cost_per_month =>
    match get_os_cost inst.image_operating_system ocpus with
    | .error e => .error e
    | .ok total_os_cost_per_month =>
      let total_storage_cost_per_month := boot_cost + block_cost
      match pyAdd (.float estimated_compute_cost_per_month)
          (.float total_storage_cost_per_month) with
      | .error e => .error e
      | .ok t1 =>
        match pyAdd t1 total_os_cost_per_month with
        | .error e => .error e
        | .ok total =>
          .ok
            { region := region
              compartment_id := compartment_id
              instance_name := inst.display_name
              instance_state := inst.lifecycle_state
              instance_ocid := inst.id
              os := inst.image_operating_system
              shape := inst.shape
              ocpus := ocpus
              memory_in_gbs := memory_in_gbs
              boot_size_in_MBs := boot_size
              block_size_in_MBs := block_size
              boot_volume_ids := inst.boot_volumes.map Prod.fst
              block_volume_ids := inst.block_volumes.map Prod.fst
              date_created := inst.time_created
              estimated_compute_cost_per_month := estimated_compute_cost_per_month
              estimated_os_cost_per_month := total_os_cost_per_month
              estimated_storage_cost_per_month := total_storage_cost_per_month
              total_cost_per_month := total }

/-- `list_instances_and_volumes(config, region, compartment_id)` (lines
61-166) with the listed instances as explicit input: skip `"TERMINATED"`
instances, assemble a record for every other one in order; a `TypeError`
inside any record's assembly aborts the whole run (Python propagates it). -/
def list_instances_and_volumes (region compartment_id : String) :
    List InstanceInfo → Except String (List InstanceRecord)
  | [] => .ok []
  | inst :: rest =>
    if inst.lifecycle_state = "TERMINATED" then
      list_instances_and_volumes region compartment_id rest
    else
      match mkInstanceRecord region compartment_id inst with
      | .error e => .error e
      | .ok r =>
        match list_instances_and_volumes region compartment_id rest with
        | .error e => .error e
        | .ok rs => .ok (r :: rs)

/-- The data the collector reads about one MySQL DB system (lines 227-239):
listing fields plus the `data_storage_size_in_gbs` fetched from the
detailed describe call. -/
structure MysqlDbInfo where
  display_name : String
  id : String
  shape_name : String
  lifecycle_state : String
  availability_domain : String
  is_highly_available : Bool
  time_created : Option String
  data_storage_size_in_gbs : ℚ
deriving DecidableEq, Repr

/-- The record assembled per DB system (lines 241-253). -/
structure MysqlRecord where
  region : String
  compartment_id : String
  db_system_name : String
  db_system_id : String
  shape : String
  data_storage_size_in_gbs : ℚ
  availability_domain : String
  is_highly_available : Bool
  state : String
  time_created : Option String
  db_cost : MysqlCost
deriving DecidableEq, Repr

/-- Record assembly for one DB system (lines 237-253). -/
def mkMysqlRecord (region compartment_id : String) (db : MysqlDbInfo) : MysqlRecord :=
  { region := region
    compartment_id := compartment_id
    db_system_name := db.display_name
    db_system_id := db.id
    shape := db.shape_name
    data_storage_size_in_gbs := db.data_storage_size_in_gbs
    availability_domain := db.availability_domain
    is_highly_available := db.is_highly_available
    state := db.lifecycle_state
    time_created := db.time_created
    db_cost := get_mysql_cost db.shape_name db.data_storage_size_in_gbs }

/-- `list_mysql_databases(config, region, compartment_id)` (lines 216-256)
with the listed DB systems as explicit input: skip `"DELETED"` systems,
assemble a record for every other one in order. -/
def list_mysql_databases (region compartment_id : String) :
    List MysqlDbInfo → List MysqlRecord
  | [] => []
  | db :: rest =>
    if db.lifecycle_state = "DELETED" then
      list_mysql_databases region compartment_id rest
    else
      mkMysqlRecord region compartment_id db :: list_mysql_databases region compartment_id rest

/-! ## Concrete inputs used by the witness theorems -/

/-- A stopped instance with a known flexible shape, a Windows image and one
50 GB boot volume. -/
def stoppedInst : InstanceInfo :=
  { display_name := "vm-stopped"
    id := "ocid1.instance.stopped"
    lifecycle_state := "STOPPED"
    shape := "VM.Standard3.Flex"
    shape_config := some { ocpus := some 2, memory_in_gbs := some 16 }
    image_operating_system := "Windows"
    time_created := none
    boot_volumes := [("bv1", 51200)]
    block_volumes := [] }

/-- The record the collector assembles for `stoppedInst`: compute cost `0`,
OS cost `2 × 0.092 × 730 = 134.32`, storage cost `50 × 0.0255 = 1.275`. -/
def stoppedRec : InstanceRecord :=
  { region := "me-jeddah-1"
    compartment_id := "cmp1"
    instance_name := "vm-stopped"
    instance_state := "STOPPED"
    instance_ocid := "ocid1.instance.stopped"
    os := "Windows"
    shape := "VM.Standard3.Flex"
    ocpus := .float 2
    memory_in_gbs := .float 16
    boot_size_in_MBs := 51200
    block_size_in_MBs := 0
    boot_volume_ids := ["bv1"]
    block_volume_ids := []
    date_created := none
    estimated_compute_cost_per_month := 0
    estimated_os_cost_per_month := .float 134.32
    estimated_storage_cost_per_month := 1.275
    total_cost_per_month := .float 135.595 }

/-- A terminated instance (the collector must skip it before issuing any
further call, so its other fields are arbitrary). -/
def termInst : InstanceInfo :=
  { display_name := "vm-dead"
    id := "ocid1.instance.dead"
    lifecycle_state := "TERMINATED"
    shape := "VM.Standard2.1"
    shape_config := none
    image_operating_system := "Linux"
    time_created := none
    boot_volumes := []
    block_volumes := [] }

/-- A running instance with a shape missing from the pricing table, a
non-Windows image and no attached volumes. -/
def liveInst : InstanceInfo :=
  { display_name := "vm-live"
    id := "ocid1.instance.live"
    lifecycle_state := "RUNNING"
    shape := "Custom.Shape"
    shape_config := some { ocpus := some 1, memory_in_gbs := some 1 }
    image_operating_system := "Linux"
    time_created := none
    boot_volumes := []
    block_volumes := [] }

/-- The record the collector assembles for `liveInst`: every cost is `0`
(unknown shape, non-Windows OS, no volumes). -/
def liveRec : InstanceRecord :=
  { region := "me-jeddah-1"
    compartment_id := "cmp1"
    instance_name := "vm-live"
    instance_state := "RUNNING"
    instance_ocid := "ocid1.instance.live"
    os := "Linux"
    shape := "Custom.Shape"
    ocpus := .float 1
    memory_in_gbs := .float 1
    boot_size_in_MBs := 0
    block_size_in_MBs := 0
    boot_volume_ids := []
    block_volume_ids := []
    date_created := none
    estimated_compute_cost_per_month := 0
    estimated_os_cost_per_month := .float 0
    estimated_storage_cost_per_month := 0
    total_cost_per_month := .float 0 }

/-- A deleted MySQL DB system (the collector must skip it). -/
def deletedDb : MysqlDbInfo :=
  { display_name := "db-del"
    id := "ocid1.mysql.del"
    shape_name := "MySQL.2"
    lifecycle_state := "DELETED"
    availability_domain := "AD-1"
    is_highly_available := false
    time_created := none
    data_storage_size_in_gbs := 100 }

/-- An active MySQL DB system. -/
def activeDb : MysqlDbInfo :=
  { display_name := "db-live"
    id := "ocid1.mysql.live"
    shape_name := "MySQL.2"
    lifecycle_state := "ACTIVE"
    availability_domain := "AD-1"
    is_highly_available := true
    time_created := none
    data_storage_size_in_gbs := 100 }

/-- A running instance whose `shape_config` is missing and whose image OS is
not in the OS pricing table — the input of the record-assembly failure. -/
def naInst : InstanceInfo :=
  { display_name := "vm-na"
    id := "ocid1.instance.na"
    lifecycle_state := "RUNNING"
    shape := "VM.Standard2.1"
    shape_config := none
    image_operating_system := "Oracle Linux"
    time_created := none
    boot_volumes := [("bv2", 51200)]
    block_volumes := [] }

/-! ## Evaluation lemmas -/

lemma join_replicate_empty (n : Nat) : String.join (List.replicate n "") = "" := by
  induction n with
  | zero => rfl
  | succ k ih =>
    rw [List.replicate_succ]
    show String.join ("" :: List.replicate k "") = ""
    rw [String.join, List.foldl_cons]
    show String.join (List.replicate k "") = ""
    exact ih

lemma pyFloatOrNA_float (q : ℚ) : pyFloatOrNA (.float q) = .ok q := by
  have h : (PyVal.float q ≠ PyVal.str "N/A") := fun h => PyVal.noConfusion h
  unfold pyFloatOrNA
  rw [if_pos h]
  rfl

lemma pyFloatOrNA_na : pyFloatOrNA (.str "N/A") = .ok 0 := rfl

/-- `get_storage_cost` is the linear map `size ↦ size × 0.0255 / 1024`. -/
lemma storage_cost_linear (s : ℚ) (region : String) :
    get_storage_cost s region = s * (51 / 2048000) := by
  unfold get_storage_cost
  by_cases h : s = 0
  · subst h; norm_num
  · simp only [h, ne_eq, not_false_iff, if_true, storage_pricing_table]
    norm_num [List.lookup]
    ring

lemma lookup_std3flex : pricing_table.lookup "VM.Standard3.Flex" = some (.flex 0.04 0.0015) := rfl

lemma lookup_os_linux : os_pricing_table.lookup "Linux" = none := rfl

lemma lookup_os_oracle : os_pricing_table.lookup "Oracle Linux" = none := rfl

lemma lookup_os_windows : os_pricing_table.lookup "Windows" = some (.float 0.092) := rfl

/-- The OS pricing table holds the single entry `"Windows" ↦ 0.092`. -/
lemma os_lookup_cases (os : String) :
    os_pricing_table.lookup os = none ∨
    os_pricing_table.lookup os = some (.float 0.092) := by
  by_cases h : os = "Windows"
  · right; subst h; rfl
  · left
    have hb : (os == "Windows") = false := beq_eq_false_iff_ne.mpr h
    simp [os_pricing_table, List.lookup, hb]

lemma get_os_cost_na_unknown (os : String) (h : os_pricing_table.lookup os = none) :
    get_os_cost os (.str "N/A") = .ok (.str "") := by
  unfold get_os_cost
  rw [h]
  show (match pyMul (PyVal.str "N/A") (PyVal.int 0) with
        | Except.error e => Except.error e
        | Except.ok t => pyMul t (PyVal.int 730)) = _
  have h1 : pyMul (.str "N/A") (.int 0) = .ok (.str "") := rfl
  rw [h1]
  show pyMul (.str "") (.int 730) = .ok (.str "")
  have h2 : pyMul (.str "") (.int 730) = .ok (.str (String.join (List.replicate 730 ""))) := rfl
  rw [h2, join_replicate_empty]

lemma get_os_cost_na_windows (os : String)
    (h : os_pricing_table.lookup os = some (.float 0.092)) :
    get_os_cost os (.str "N/A") =
      .error "TypeError: cannot multiply sequence by non-int of type float" := by
  unfold get_os_cost
  rw [h]
  rfl

lemma get_os_cost_float (os : String) (q : ℚ) :
    (os_pricing_table.lookup os = none →
      get_os_cost os (.float q) = .ok (.float (q * 0 * 730))) ∧
    (os_pricing_table.lookup os = some (.float 0.092) →
      get_os_cost os (.float q) = .ok (.float (q * 0.092 * 730))) := by
  constructor
  · intro h
    unfold get_os_cost
    rw [h]
    rfl
  · intro h
    unfold get_os_cost
    rw [h]
    rfl

/-- The extracted OCPU value is always a float or the string `"N/A"`. -/
lemma extract_ocpus_cases (sc : Option ShapeConfig) :
    extract_ocpus sc = .str "N/A" ∨ ∃ q, extract_ocpus sc = .float q := by
  cases sc with
  | none => left; rfl
  | some c =>
    cases hc : c.ocpus with
    | none => left; simp [extract_ocpus, hc]
    | some q =>
      by_cases hq : q = 0
      · left; simp [extract_ocpus, hc, hq]
      · right; exact ⟨q, by simp [extract_ocpus, hc, hq]⟩

lemma pyFloatOrNA_extract_ocpus (sc : Option ShapeConfig) :
    ∃ q, pyFloatOrNA (extract_ocpus sc) = .ok q := by
  rcases extract_ocpus_cases sc with h | ⟨q, h⟩
  · exact ⟨0, by rw [h]; exact pyFloatOrNA_na⟩
  · exact ⟨q, by rw [h]; exact pyFloatOrNA_float q⟩

lemma extract_memory_cases (sc : Option ShapeConfig) :
    extract_memory sc = .str "N/A" ∨ ∃ q, extract_memory sc = .float q := by
  cases sc with
  | none => left; rfl
  | some c =>
    cases hc : c.memory_in_gbs with
    | none => left; simp [extract_memory, hc]
    | some q =>
      by_cases hq : q = 0
      · left; simp [extract_memory, hc, hq]
      · right; exact ⟨q, by simp [extract_memory, hc, hq]⟩

lemma pyFloatOrNA_extract_memory (sc : Option ShapeConfig) :
    ∃ q, pyFloatOrNA (extract_memory sc) = .ok q := by
  rcases extract_memory_cases sc with h | ⟨q, h⟩
  · exact ⟨0, by rw [h]; exact pyFloatOrNA_na⟩
  · exact ⟨q, by rw [h]; exact pyFloatOrNA_float q⟩

/-- `get_instance_cost` never raises on the values the collector extracts. -/
lemma get_instance_cost_extract_ok (shape : String) (sc : Option ShapeConfig)
    (region : String) :
    ∃ c, get_instance_cost shape (extract_ocpus sc) (extract_memory sc) region = .ok c := by
  obtain ⟨o, ho⟩ := pyFloatOrNA_extract_ocpus sc
  obtain ⟨m, hm⟩ := pyFloatOrNA_extract_memory sc
  unfold get_instance_cost
  rw [ho, hm]
  cases hl : pricing_table.lookup shape with
  | none => exact ⟨0, by simp⟩
  | some e =>
    cases e with
    | flex a b => exact ⟨o * a + m * b, by simp⟩
    | fixedRate r => exact ⟨r, by simp⟩

/-- On extracted OCPU values, `get_os_cost` returns a float, the empty
string, or raises. -/
lemma get_os_cost_extract (os : String) (sc : Option ShapeConfig) :
    (∃ q, get_os_cost os (extract_ocpus sc) = .ok (.float q)) ∨
    get_os_cost os (extract_ocpus sc) = .ok (.str "") ∨
    (∃ e, get_os_cost os (extract_ocpus sc) = .error e) := by
  rcases extract_ocpus_cases sc with h | ⟨q, h⟩ <;> rw [h] <;>
    rcases os_lookup_cases os with hl | hl
  · right; left; exact get_os_cost_na_unknown os hl
  · right; right; exact ⟨_, get_os_cost_na_windows os hl⟩
  · left; exact ⟨q * 0 * 730, (get_os_cost_float os q).1 hl⟩
  · left; exact ⟨q * 0.092 * 730, (get_os_cost_float os q).2 hl⟩

/-! ## Claim theorems -/

/-- C1: for every shape present in the compute pricing table, the monthly
compute-cost estimate (the hourly `get_instance_cost` times the collector's
730 hours/month factor, listcompute.py line 139) equals
`(ocpus × ocpu_rate + memory_gb × memory_rate) × 730` when the table entry
has per-OCPU/per-GB rates, and `fixed_rate × 730` when it has a flat
rate. -/
theorem known_shape_monthly_compute_cost (shape : String) (e : ShapeEntry)
    (h : pricing_table.lookup shape = some e) (o m : ℚ) (region : String) :
    Except.map (fun c => c * 730) (get_instance_cost shape (.float o) (.float m) region) =
      .ok (match e with
           | .flex ocpu_rate memory_rate => (o * ocpu_rate + m * memory_rate) * 730
           | .fixedRate rate => rate * 730) := by
  unfold get_instance_cost
  rw [pyFloatOrNA_float, pyFloatOrNA_float, h]
  cases e <;> simp [Except.map]

/-- Witness for C1 at the spec's own example: shape `"VM.Standard3.Flex"`,
2 OCPUs, 16 GB memory gives `(2×0.04 + 16×0.0015)×730 = 75.92`. -/
theorem known_shape_monthly_compute_cost_witness :
    Except.map (fun c => c * 730)
        (get_instance_cost "VM.Standard3.Flex" (.float 2) (.float 16) "me-jeddah-1") =
      .ok (75.92 : ℚ) := by
  have h := known_shape_monthly_compute_cost "VM.Standard3.Flex" (.flex 0.04 0.0015)
    lookup_std3flex 2 16 "me-jeddah-1"
  rw [h]
  norm_num

/-- C2 fails as stated: the storage-cost estimate does not consult any
shape table — at size 51200 MB it returns `1.275 ≠ 0` even though the
shape `"VM.GPU.A10.1"` is absent from the compute pricing table. -/
theorem unknown_shape_zero_cost_counterexample :
    pricing_table.lookup "VM.GPU.A10.1" = none ∧
    get_storage_cost 51200 "me-jeddah-1" ≠ 0 := by
  constructor
  · rfl
  · rw [storage_cost_linear]
    norm_num

/-- C2 amended: for every shape absent from the compute pricing table the
compute-cost estimate returns exactly 0 for all numeric OCPU/memory inputs;
the storage-cost estimate takes no shape argument at all — it depends only
on the size, and is 0 exactly when the size is 0. -/
theorem unknown_shape_compute_cost_zero (shape : String)
    (h : pricing_table.lookup shape = none) (o m s : ℚ) (region : String) :
    get_instance_cost shape (.float o) (.float m) region = .ok 0 ∧
    (get_storage_cost s region = 0 ↔ s = 0) := by
  constructor
  · unfold get_instance_cost
    rw [pyFloatOrNA_float, pyFloatOrNA_float, h]
  · rw [storage_cost_linear]
    constructor
    · intro h2
      rcases mul_eq_zero.mp h2 with h3 | h3
      · exact h3
      · norm_num at h3
    · intro h2
      rw [h2, zero_mul]

/-- Witness for the amended C2 at shape `"VM.GPU.A10.1"`, 1 OCPU, 2 GB,
size 51200 MB. -/
theorem unknown_shape_compute_cost_zero_witness :
    pricing_table.lookup "VM.GPU.A10.1" = none ∧
    (get_instance_cost "VM.GPU.A10.1" (.float 1) (.float 2) "me-jeddah-1" = .ok 0 ∧
     (get_storage_cost 51200 "me-jeddah-1" = 0 ↔ (51200 : ℚ) = 0)) :=
  ⟨rfl, unknown_shape_compute_cost_zero "VM.GPU.A10.1" rfl 1 2 51200 "me-jeddah-1"⟩

/-- C3: the MySQL cost estimator returns the distinct error dict
`{"error": "Unknown shape"}` for every shape absent from the MySQL pricing
table (at every storage size), and a number for every shape present. -/
theorem mysql_cost_unknown_vs_known (shape : String) (storage_in_gbs : ℚ) :
    (mysql_pricing_table.lookup shape = none →
      get_mysql_cost shape storage_in_gbs = .errDict "Unknown shape") ∧
    (∀ e, mysql_pricing_table.lookup shape = some e →
      ∃ q, get_mysql_cost shape storage_in_gbs = .num q) := by
  constructor
  · intro h
    unfold get_mysql_cost
    rw [h]
  · intro e h
    unfold get_mysql_cost
    rw [h]
    exact ⟨_, rfl⟩

/-- Witness for C3: `"MySQL.Foo"` is unknown (error dict at storage 100),
`"MySQL.2"` is known (numeric result at storage 100). -/
theorem mysql_cost_unknown_vs_known_witness :
    get_mysql_cost "MySQL.Foo" 100 = .errDict "Unknown shape" ∧
    ∃ q, get_mysql_cost "MySQL.2" 100 = .num q :=
  ⟨(mysql_cost_unknown_vs_known "MySQL.Foo" 100).1 rfl,
   (mysql_cost_unknown_vs_known "MySQL.2" 100).2 ⟨2, 16, 0.03, 0.0015⟩ rfl⟩

/-- C6: the storage-cost estimate is monotone non-decreasing in the size
argument (so in particular doubling the size never decreases it). -/
theorem storage_cost_monotone (a b : ℚ) (region : String) (h : a ≤ b) :
    get_storage_cost a region ≤ get_storage_cost b region := by
  rw [storage_cost_linear, storage_cost_linear]
  exact mul_le_mul_of_nonneg_right h (by norm_num)

/-- Witness for C6 at sizes 51200 ≤ 102400. -/
theorem storage_cost_monotone_witness :
    (51200 : ℚ) ≤ 102400 ∧
    get_storage_cost 51200 "me-jeddah-1" ≤ get_storage_cost 102400 "me-jeddah-1" :=
  ⟨by norm_num, storage_cost_monotone 51200 102400 "me-jeddah-1" (by norm_num)⟩

/-- C7 names intended behavior the code does not have: `get_instance_cost`
does treat `"N/A"` as 0, but `get_os_cost` does not — for an OS absent from
the OS table, `"N/A" * 0 * 730` evaluates to the empty string, not the
number obtained with OCPUs = 0, and for `"Windows"` the multiplication
raises a `TypeError`. -/
theorem os_cost_na_not_treated_as_zero :
    get_instance_cost "VM.Standard3.Flex" (.str "N/A") (.float 16) "me-jeddah-1" =
      get_instance_cost "VM.Standard3.Flex" (.float 0) (.float 16) "me-jeddah-1" ∧
    get_os_cost "Linux" (.str "N/A") = .ok (.str "") ∧
    get_os_cost "Linux" (.float 0) = .ok (.float (0 * 0 * 730)) ∧
    PyVal.str "" ≠ PyVal.float (0 * 0 * 730) ∧
    get_os_cost "Windows" (.str "N/A") =
      .error "TypeError: cannot multiply sequence by non-int of type float" := by
  refine ⟨?_, ?_, ?_, ?_, ?_⟩
  · unfold get_instance_cost
    simp only [pyFloatOrNA_na, pyFloatOrNA_float]
  · exact get_os_cost_na_unknown "Linux" lookup_os_linux
  · exact (get_os_cost_float "Linux" 0).1 lookup_os_linux
  · intro h
    exact PyVal.noConfusion h
  · exact get_os_cost_na_windows "Windows" lookup_os_windows

/-- C8: a boot volume of exactly 51200 MB is converted to 50 GB and costs
`50 × 0.0255 = 1.275` per month. -/
theorem storage_cost_51200 (region : String) :
    get_storage_cost 51200 region = 1.275 ∧ (51200 : ℚ) / 1024 = 50 ∧
    (50 : ℚ) * 0.0255 = 1.275 := by
  rw [storage_cost_linear]
  norm_num

/-- C9: the storage-cost estimate never depends on its region argument. -/
theorem storage_cost_region_independent (size_in_mbs : ℚ) (r1 r2 : String) :
    get_storage_cost size_in_mbs r1 = get_storage_cost size_in_mbs r2 := rfl

lemma lookup_custom_shape : pricing_table.lookup "Custom.Shape" = none := rfl

lemma mkInstanceRecord_state (region cid : String) (inst : InstanceInfo)
    (r : InstanceRecord) (h : mkInstanceRecord region cid inst = .ok r) :
    r.instance_state = inst.lifecycle_state := by
  simp only [mkInstanceRecord] at h
  repeat' split at h
  all_goals cases h
  all_goals rfl

lemma instances_no_terminated (region cid : String) (instances : List InstanceInfo)
    (recs : List InstanceRecord)
    (h : list_instances_and_volumes region cid instances = .ok recs) :
    ∀ r ∈ recs, r.instance_state ≠ "TERMINATED" := by
  induction instances generalizing recs with
  | nil =>
    simp only [list_instances_and_volumes] at h
    injection h with h2
    subst h2
    intro r hr
    cases hr
  | cons inst rest ih =>
    simp only [list_instances_and_volumes] at h
    by_cases hterm : inst.lifecycle_state = "TERMINATED"
    · rw [if_pos hterm] at h
      exact ih recs h
    · rw [if_neg hterm] at h
      cases hmk : mkInstanceRecord region cid inst with
      | error e => rw [hmk] at h; cases h
      | ok r0 =>
        rw [hmk] at h
        cases hrest : list_instances_and_volumes region cid rest with
        | error e => rw [hrest] at h; cases h
        | ok rs =>
          rw [hrest] at h
          injection h with h2
          subst h2
          intro r hr
          rcases List.mem_cons.mp hr with rfl | hr2
          · rw [mkInstanceRecord_state region cid inst r hmk]
            exact hterm
          · exact ih rs hrest r hr2

lemma mysql_no_deleted (region cid : String) (dbs : List MysqlDbInfo) :
    ∀ m ∈ list_mysql_databases region cid dbs, m.state ≠ "DELETED" := by
  induction dbs with
  | nil => intro m hm; cases hm
  | cons db rest ih =>
    simp only [list_mysql_databases]
    by_cases hdel : db.lifecycle_state = "DELETED"
    · rw [if_pos hdel]
      exact ih
    · rw [if_neg hdel]
      intro m hm
      rcases List.mem_cons.mp hm with rfl | hm2
      · simpa [mkMysqlRecord] using hdel
      · exact ih m hm2

/-- C4: every successfully assembled record of a `"STOPPED"` instance has
compute-cost field `0`, and its total monthly cost is exactly the sum of
its storage cost and its OS-surcharge cost. -/
theorem stopped_instance_total_cost (region cid : String) (inst : InstanceInfo)
    (r : InstanceRecord) (hstop : inst.lifecycle_state = "STOPPED")
    (hok : mkInstanceRecord region cid inst = .ok r) :
    r.estimated_compute_cost_per_month = 0 ∧
    ∃ osq, r.estimated_os_cost_per_month = .float osq ∧
      r.total_cost_per_month =
        .float (r.estimated_storage_cost_per_month + osq) := by
  have hosc := get_os_cost_extract inst.image_operating_system inst.shape_config
  simp only [mkInstanceRecord] at hok
  rw [if_pos hstop] at hok
  rcases hosc with ⟨q, hq⟩ | hq | ⟨e, hq⟩ <;> rw [hq] at hok <;> simp [pyAdd] at hok
  subst hok
  exact ⟨rfl, q, rfl, rfl⟩

/-- Witness for C4: the record of the concrete stopped instance has compute
cost 0, storage cost 1.275, OS cost 134.32 and total 135.595. -/
theorem stopped_instance_total_cost_witness :
    stoppedInst.lifecycle_state = "STOPPED" ∧
    mkInstanceRecord "me-jeddah-1" "cmp1" stoppedInst = .ok stoppedRec ∧
    (stoppedRec.estimated_compute_cost_per_month = 0 ∧
     ∃ osq, stoppedRec.estimated_os_cost_per_month = .float osq ∧
       stoppedRec.total_cost_per_month =
         .float (stoppedRec.estimated_storage_cost_per_month + osq)) := by
  have hok : mkInstanceRecord "me-jeddah-1" "cmp1" stoppedInst = .ok stoppedRec := by
    norm_num [mkInstanceRecord, stoppedInst, stoppedRec, extract_ocpus, extract_memory,
      storage_cost_linear, lookup_os_windows, get_os_cost, pyMul, pyAdd]
  exact ⟨rfl, hok,
    stopped_instance_total_cost "me-jeddah-1" "cmp1" stoppedInst stoppedRec rfl hok⟩

/-- C5: no `"TERMINATED"` instance record ever appears in the compute
collector's output, and no `"DELETED"` DB system appears in the MySQL
collector's output. -/
theorem no_terminated_no_deleted_in_output (region cid : String)
    (instances : List InstanceInfo) (recs : List InstanceRecord)
    (h : list_instances_and_volumes region cid instances = .ok recs)
    (dbs : List MysqlDbInfo) :
    (∀ r ∈ recs, r.instance_state ≠ "TERMINATED") ∧
    (∀ m ∈ list_mysql_databases region cid dbs, m.state ≠ "DELETED") :=
  ⟨instances_no_terminated region cid instances recs h,
   mysql_no_deleted region cid dbs⟩

/-- Witness for C5: of a terminated and a running instance only the
running one is collected, and the deleted DB system is skipped. -/
theorem no_terminated_no_deleted_in_output_witness :
    list_instances_and_volumes "me-jeddah-1" "cmp1" [termInst, liveInst] = .ok [liveRec] ∧
    ((∀ r ∈ [liveRec], r.instance_state ≠ "TERMINATED") ∧
     (∀ m ∈ list_mysql_databases "me-jeddah-1" "cmp1" [deletedDb, activeDb],
        m.state ≠ "DELETED")) := by
  have h : list_instances_and_volumes "me-jeddah-1" "cmp1" [termInst, liveInst] =
      .ok [liveRec] := by
    norm_num [list_instances_and_volumes, mkInstanceRecord, termInst, liveInst, liveRec,
      extract_ocpus, extract_memory, storage_cost_linear, get_os_cost, get_instance_cost,
      pyFloatOrNA_float, lookup_os_linux, lookup_custom_shape, pyMul, pyAdd]
    decide
  exact ⟨h,
    no_terminated_no_deleted_in_output "me-jeddah-1" "cmp1" [termInst, liveInst]
      [liveRec] h [deletedDb, activeDb]⟩

/-- C10: when the OCPU count is the `"N/A"` placeholder and the image OS
is not in the OS pricing table, the OS surcharge evaluates to the empty
string (Python string repetition by the int rate 0), and the record
assembly fails with a `TypeError` from the total-cost addition instead of
producing a record. -/
theorem na_ocpus_unknown_os_breaks_record (region cid : String) (inst : InstanceInfo)
    (hna : extract_ocpus inst.shape_config = .str "N/A")
    (hos : os_pricing_table.lookup inst.image_operating_system = none) :
    get_os_cost inst.image_operating_system (extract_ocpus inst.shape_config) =
      .ok (.str "") ∧
    ∃ e, mkInstanceRecord region cid inst = .error e := by
  have hosc : get_os_cost inst.image_operating_system (extract_ocpus inst.shape_config) =
      .ok (.str "") := by
    rw [hna]
    exact get_os_cost_na_unknown _ hos
  refine ⟨hosc, ?_⟩
  obtain ⟨c, hc⟩ := get_instance_cost_extract_ok inst.shape inst.shape_config region
  simp only [mkInstanceRecord]
  by_cases hstop : inst.lifecycle_state = "STOPPED"
  · rw [if_pos hstop, hosc]
    simp [pyAdd]
  · rw [if_neg hstop, hc, hosc]
    simp [pyAdd]

/-- Witness for C10 at the concrete instance with missing shape config and
an `"Oracle Linux"` image. -/
theorem na_ocpus_unknown_os_breaks_record_witness :
    extract_ocpus naInst.shape_config = .str "N/A" ∧
    os_pricing_table.lookup naInst.image_operating_system = none ∧
    (get_os_cost naInst.image_operating_system (extract_ocpus naInst.shape_config) =
       .ok (.str "") ∧
     ∃ e, mkInstanceRecord "me-jeddah-1" "cmp1" naInst = .error e) :=
  ⟨rfl, rfl, na_ocpus_unknown_os_breaks_record "me-jeddah-1" "cmp1" naInst rfl rfl⟩
